import Mathlib

/-!
Verification of the AWS Lambda request relay in
`src/aws-lambda/lambda_function.py`.

The handler is embedded shallowly: a Python dict key that may be absent
becomes an `Option` field, an uncaught Python exception (`KeyError`,
`IndexError`, a `requests` failure) becomes an `Except.error` outcome, and
the single outbound HTTP call becomes a query to an oracle
`http : OutRequest → Except Fault String` whose `Except.ok` result is the
`response.text` of the upstream reply.  The handler returns the list of
outbound requests it issued together with its outcome, so that properties
about the request trace can be stated even on faulting runs.
-/

/-- One element of the event's `parameters` list: a dict with keys
`name`, `type`, `value`.  The code only ever reads `value`
(`parameters[0]["value"]`), which raises `KeyError` when absent, hence
`value : Option String`. -/
structure Param where
  name : String
  type : String
  value : Option String
deriving DecidableEq

/-- The invocation event.  Each top-level dict key that the code accesses
with `event[...]` (raising `KeyError` when absent) or `event.get` is an
`Option` field; session-attribute mappings are association lists. -/
structure Event where
  agent : Option String
  actionGroup : Option String
  function : Option String
  parameters : Option (List Param)
  sessionAttributes : Option (List (String × String))
  promptSessionAttributes : Option (List (String × String))
deriving DecidableEq

/-- The uncaught faults the handler can die with: a missing dict key, an
out-of-range list index, or a failed outbound HTTP call (timeout,
connection error, ...). -/
inductive Fault where
  | keyError (key : String)
  | indexError
  | httpError
deriving DecidableEq

/-- The observable content of the one outbound call made via
`requests.request("GET", url, headers=headers, timeout=30)`:
method, URL, the single `X-Sim-Api-Key` header (whose value is
`os.getenv("SIM_API_KEY")`, `none` when the variable is absent), and the
timeout in seconds. -/
structure OutRequest where
  method : String
  url : String
  headerName : String
  headerValue : Option String
  timeout : Nat
deriving DecidableEq

/-- `response_body = {'TEXT': {'body': response.text}}`. -/
structure TextBody where
  body : String
deriving DecidableEq

structure ResponseBody where
  TEXT : TextBody
deriving DecidableEq

structure InnerFunctionResponse where
  responseBody : ResponseBody
deriving DecidableEq

/-- `function_response` as built on lines 27-33 of the source. -/
structure FunctionResponse where
  actionGroup : String
  function : String
  functionResponse : InnerFunctionResponse
deriving DecidableEq

/-- `action_response` as built on lines 38-43 of the source. -/
structure ActionResponse where
  messageVersion : String
  response : FunctionResponse
  sessionAttributes : List (String × String)
  promptSessionAttributes : List (String × String)
deriving DecidableEq

/-- Shallow embedding of `lambda_handler(event, context)`.

`env_SIM_API_KEY` is the value of `os.getenv("SIM_API_KEY")`; `http` is
the network: it maps the issued request to the upstream `response.text`,
or to a fault for a timeout / connection error / other `requests`
exception.  The result pairs the list of outbound requests issued during
the run with the outcome.  The order of the matches follows the order of
the dict accesses in the source exactly: `agent`, `actionGroup`,
`function`, `parameters` (via `.get` with default `[]`),
`parameters[0]["value"]` (first touched by the logging f-string), the
HTTP call, then `sessionAttributes` and `promptSessionAttributes`. -/
def lambda_handler (env_SIM_API_KEY : Option String)
    (http : OutRequest → Except Fault String) (event : Event) :
    List OutRequest × Except Fault ActionResponse :=
  match event.agent with
  | none => ([], Except.error (Fault.keyError "agent"))
  | some _agent =>
  match event.actionGroup with
  | none => ([], Except.error (Fault.keyError "actionGroup"))
  | some actionGroup =>
  match event.function with
  | none => ([], Except.error (Fault.keyError "function"))
  | some function =>
  match event.parameters.getD [] with
  | [] => ([], Except.error Fault.indexError)
  | p0 :: _ =>
  match p0.value with
  | none => ([], Except.error (Fault.keyError "value"))
  | some wallet_address =>
  let url := "https://api.sim.dune.com/v1/evm/transactions/" ++ wallet_address
  let req : OutRequest :=
    { method := "GET", url := url,
      headerName := "X-Sim-Api-Key", headerValue := env_SIM_API_KEY,
      timeout := 30 }
  match http req with
  | Except.error f => ([req], Except.error f)
  | Except.ok text =>
  let response_body : ResponseBody := { TEXT := { body := text } }
  let function_response : FunctionResponse :=
    { actionGroup := actionGroup, function := function,
      functionResponse := { responseBody := response_body } }
  match event.sessionAttributes with
  | none => ([req], Except.error (Fault.keyError "sessionAttributes"))
  | some session_attributes =>
  match event.promptSessionAttributes with
  | none => ([req], Except.error (Fault.keyError "promptSessionAttributes"))
  | some prompt_session_attributes =>
  let action_response : ActionResponse :=
    { messageVersion := "1.0",
      response := function_response,
      sessionAttributes := session_attributes,
      promptSessionAttributes := prompt_session_attributes }
  ([req], Except.ok action_response)

/-- The one request the source can issue, as a function of the wallet
address and the environment key. -/
def mkReq (env_SIM_API_KEY : Option String) (wallet_address : String) : OutRequest :=
  { method := "GET",
    url := "https://api.sim.dune.com/v1/evm/transactions/" ++ wallet_address,
    headerName := "X-Sim-Api-Key", headerValue := env_SIM_API_KEY,
    timeout := 30 }

/-- The successful response envelope, as a function of the copied fields
and the upstream body text. -/
def mkResp (g f t : String) (sa psa : List (String × String)) : ActionResponse :=
  { messageVersion := "1.0",
    response := { actionGroup := g, function := f,
                  functionResponse := { responseBody := { TEXT := { body := t } } } },
    sessionAttributes := sa, promptSessionAttributes := psa }

/-- A concrete well-formed event, for witnesses. -/
def evOK : Event :=
  { agent := some "a1", actionGroup := some "g1", function := some "getTxns",
    parameters := some [{ name := "wallet", type := "string", value := some "0xabc" }],
    sessionAttributes := some [("k", "v")],
    promptSessionAttributes := some [] }

/-- A variant of `evOK` that differs only in the fields the code never
reads: the `agent` value, the first parameter's `name` and `type`, and a
second parameter. -/
def evVar : Event :=
  { agent := some "a2", actionGroup := some "g1", function := some "getTxns",
    parameters := some [{ name := "x", type := "integer", value := some "0xabc" },
                        { name := "extra", type := "string", value := some "zzz" }],
    sessionAttributes := some [("k", "v")],
    promptSessionAttributes := some [] }

/-- A concrete event whose `agent` key is missing but whose `parameters`
sequence is non-empty. -/
def evNoAgent : Event :=
  { agent := none, actionGroup := some "g1", function := some "getTxns",
    parameters := some [{ name := "wallet", type := "string", value := some "0xabc" }],
    sessionAttributes := some [], promptSessionAttributes := some [] }

/-- A concrete event with `parameters = []`. -/
def evEmptyParams : Event :=
  { agent := some "a1", actionGroup := some "g1", function := some "getTxns",
    parameters := some [],
    sessionAttributes := some [], promptSessionAttributes := some [] }

/-- A network stub whose upstream body is always `"OK"`. -/
def httpOK : OutRequest → Except Fault String := fun _ => Except.ok "OK"

/-- The request the handler issues on `evOK` with key `"k1"`. -/
def reqOK : OutRequest :=
  { method := "GET", url := "https://api.sim.dune.com/v1/evm/transactions/0xabc",
    headerName := "X-Sim-Api-Key", headerValue := some "k1", timeout := 30 }

/-- The response the handler returns on `evOK` with key `"k1"` and
network `httpOK`. -/
def respOK : ActionResponse :=
  { messageVersion := "1.0",
    response := { actionGroup := "g1", function := "getTxns",
                  functionResponse := { responseBody := { TEXT := { body := "OK" } } } },
    sessionAttributes := [("k", "v")],
    promptSessionAttributes := [] }

/-- Characterization of every successful run: all dict keys were present,
exactly one request was issued, and the output is the envelope built from
the copied fields and the upstream body. -/
theorem lambda_handler_ok_spec (env : Option String)
    (http : OutRequest → Except Fault String) (e : Event)
    (reqs : List OutRequest) (resp : ActionResponse)
    (h : lambda_handler env http e = (reqs, Except.ok resp)) :
    ∃ a g f p0 rest w t sa psa,
      e.agent = some a ∧ e.actionGroup = some g ∧ e.function = some f ∧
      e.parameters.getD [] = p0 :: rest ∧ p0.value = some w ∧
      e.sessionAttributes = some sa ∧ e.promptSessionAttributes = some psa ∧
      reqs = [mkReq env w] ∧ http (mkReq env w) = Except.ok t ∧
      resp = mkResp g f t sa psa := by
  simp only [lambda_handler] at h
  repeat' split at h
  all_goals simp_all [mkReq, mkResp]

/-- Characterization of the request trace: any request the handler issued
is the GET built from the first parameter's `value` and the environment
key. -/
theorem lambda_handler_trace_spec (env : Option String)
    (http : OutRequest → Except Fault String) (e : Event) (req : OutRequest)
    (h : req ∈ (lambda_handler env http e).1) :
    ∃ p0 rest w,
      e.parameters.getD [] = p0 :: rest ∧ p0.value = some w ∧ req = mkReq env w := by
  simp only [lambda_handler] at h
  repeat' split at h
  all_goals simp_all [mkReq]

/-- C1: on every run on which the handler returns, the returned
`ActionResponse`'s `response.actionGroup` and `response.function` equal
the input event's `actionGroup` and `function`. -/
theorem response_ids_copied_from_event (env : Option String)
    (http : OutRequest → Except Fault String) (e : Event)
    (reqs : List OutRequest) (resp : ActionResponse)
    (h : lambda_handler env http e = (reqs, Except.ok resp)) :
    e.actionGroup = some resp.response.actionGroup ∧
    e.function = some resp.response.function := by
  obtain ⟨a, g, f, p0, rest, w, t, sa, psa, ha, hg, hf, hp, hw, hsa, hpsa, hreqs, hhttp,
    hresp⟩ := lambda_handler_ok_spec env http e reqs resp h
  subst hresp
  simp only [mkResp]
  exact ⟨hg, hf⟩

theorem response_ids_copied_from_event_witness :
    lambda_handler (some "k1") httpOK evOK = ([reqOK], Except.ok respOK) ∧
    (evOK.actionGroup = some respOK.response.actionGroup ∧
     evOK.function = some respOK.response.function) :=
  ⟨rfl, response_ids_copied_from_event (some "k1") httpOK evOK [reqOK] respOK rfl⟩

/-- C2: on every run on which the handler returns, the returned
`sessionAttributes` and `promptSessionAttributes` equal, by value, the
input event's. -/
theorem session_attrs_passed_through (env : Option String)
    (http : OutRequest → Except Fault String) (e : Event)
    (reqs : List OutRequest) (resp : ActionResponse)
    (h : lambda_handler env http e = (reqs, Except.ok resp)) :
    e.sessionAttributes = some resp.sessionAttributes ∧
    e.promptSessionAttributes = some resp.promptSessionAttributes := by
  obtain ⟨a, g, f, p0, rest, w, t, sa, psa, ha, hg, hf, hp, hw, hsa, hpsa, hreqs, hhttp,
    hresp⟩ := lambda_handler_ok_spec env http e reqs resp h
  subst hresp
  simp only [mkResp]
  exact ⟨hsa, hpsa⟩

theorem session_attrs_passed_through_witness :
    lambda_handler (some "k1") httpOK evOK = ([reqOK], Except.ok respOK) ∧
    (evOK.sessionAttributes = some respOK.sessionAttributes ∧
     evOK.promptSessionAttributes = some respOK.promptSessionAttributes) :=
  ⟨rfl, session_attrs_passed_through (some "k1") httpOK evOK [reqOK] respOK rfl⟩

/-- C3: for every event whose `parameters` sequence is non-empty, any URL
the handler requests is exactly the fixed prefix concatenated with
`parameters[0].value`, with no transformation of that value. -/
theorem requested_url_is_exact_concatenation (env : Option String)
    (http : OutRequest → Except Fault String) (e : Event)
    (p0 : Param) (rest : List Param) (req : OutRequest)
    (hp : e.parameters = some (p0 :: rest))
    (h : req ∈ (lambda_handler env http e).1) :
    ∃ w, p0.value = some w ∧
      req.url = "https://api.sim.dune.com/v1/evm/transactions/" ++ w := by
  obtain ⟨p0', rest', w, hp', hw, hreq⟩ := lambda_handler_trace_spec env http e req h
  rw [hp] at hp'
  simp only [Option.getD_some, List.cons.injEq] at hp'
  refine ⟨w, ?_, ?_⟩
  · rw [hp'.1]; exact hw
  · subst hreq; rfl

theorem requested_url_is_exact_concatenation_witness :
    reqOK ∈ (lambda_handler (some "k1") httpOK evOK).1 ∧
    (∃ w, ({ name := "wallet", type := "string", value := some "0xabc" } : Param).value
            = some w ∧
          reqOK.url = "https://api.sim.dune.com/v1/evm/transactions/" ++ w) :=
  ⟨by simp [lambda_handler, evOK, httpOK, reqOK],
   requested_url_is_exact_concatenation (some "k1") httpOK evOK
     { name := "wallet", type := "string", value := some "0xabc" } [] reqOK rfl
     (by simp [lambda_handler, evOK, httpOK, reqOK])⟩

/-- C4: on every run on which the handler returns, the returned
`response.functionResponse.responseBody.TEXT.body` is exactly the
upstream response text of the issued request, unmodified. -/
theorem upstream_body_passed_through_verbatim (env : Option String)
    (http : OutRequest → Except Fault String) (e : Event)
    (reqs : List OutRequest) (resp : ActionResponse) (req : OutRequest) (t : String)
    (h : lambda_handler env http e = (reqs, Except.ok resp))
    (hreq : req ∈ reqs) (ht : http req = Except.ok t) :
    resp.response.functionResponse.responseBody.TEXT.body = t := by
  obtain ⟨a, g, f, p0, rest, w, t', sa, psa, ha, hg, hf, hp, hw, hsa, hpsa, hreqs, hhttp,
    hresp⟩ := lambda_handler_ok_spec env http e reqs resp h
  subst hreqs
  rw [List.mem_singleton] at hreq
  subst hreq
  rw [hhttp] at ht
  injection ht with ht
  subst hresp
  simp only [mkResp]
  exact ht

theorem upstream_body_passed_through_verbatim_witness :
    lambda_handler (some "k1") httpOK evOK = ([reqOK], Except.ok respOK) ∧
    httpOK reqOK = Except.ok "OK" ∧
    respOK.response.functionResponse.responseBody.TEXT.body = "OK" :=
  ⟨rfl, rfl,
   upstream_body_passed_through_verbatim (some "k1") httpOK evOK [reqOK] respOK reqOK
     "OK" rfl (List.mem_singleton.mpr rfl) rfl⟩

/-- C5: on every run on which the handler returns, the returned
`messageVersion` is the fixed string `"1.0"`. -/
theorem messageVersion_fixed (env : Option String)
    (http : OutRequest → Except Fault String) (e : Event)
    (reqs : List OutRequest) (resp : ActionResponse)
    (h : lambda_handler env http e = (reqs, Except.ok resp)) :
    resp.messageVersion = "1.0" := by
  obtain ⟨a, g, f, p0, rest, w, t, sa, psa, ha, hg, hf, hp, hw, hsa, hpsa, hreqs, hhttp,
    hresp⟩ := lambda_handler_ok_spec env http e reqs resp h
  subst hresp
  rfl

theorem messageVersion_fixed_witness :
    lambda_handler (some "k1") httpOK evOK = ([reqOK], Except.ok respOK) ∧
    respOK.messageVersion = "1.0" :=
  ⟨rfl, messageVersion_fixed (some "k1") httpOK evOK [reqOK] respOK rfl⟩

/-- C6: for every event whose `parameters` field is the empty sequence,
the handler faults and does not return an `ActionResponse`. -/
theorem empty_parameters_faults (env : Option String)
    (http : OutRequest → Except Fault String) (e : Event)
    (h : e.parameters = some []) :
    ∃ f, (lambda_handler env http e).2 = Except.error f := by
  cases hres : (lambda_handler env http e).2 with
  | error f => exact ⟨f, rfl⟩
  | ok resp =>
    exfalso
    have hpair : lambda_handler env http e =
        ((lambda_handler env http e).1, Except.ok resp) := by
      rw [← hres]
    obtain ⟨a, g, f, p0, rest, w, t, sa, psa, ha, hg, hf, hp, hw, hsa, hpsa, hreqs, hhttp,
      hresp⟩ := lambda_handler_ok_spec env http e _ resp hpair
    rw [h] at hp
    simp at hp

theorem empty_parameters_faults_witness :
    evEmptyParams.parameters = some [] ∧
    ∃ f, (lambda_handler (some "k1") httpOK evEmptyParams).2 = Except.error f :=
  ⟨rfl, empty_parameters_faults (some "k1") httpOK evEmptyParams rfl⟩

/-- C7: for every event missing the `parameters` key, or missing any of
the `agent`, `actionGroup`, `function`, or `sessionAttributes` keys, the
handler faults: the failure propagates and is never translated into a
structured (`Except.ok`) response. -/
theorem missing_keys_fault_uncaught (env : Option String)
    (http : OutRequest → Except Fault String) (e : Event)
    (h : e.parameters = none ∨ e.agent = none ∨ e.actionGroup = none ∨
         e.function = none ∨ e.sessionAttributes = none) :
    ∃ f, (lambda_handler env http e).2 = Except.error f := by
  cases hres : (lambda_handler env http e).2 with
  | error f => exact ⟨f, rfl⟩
  | ok resp =>
    exfalso
    have hpair : lambda_handler env http e =
        ((lambda_handler env http e).1, Except.ok resp) := by
      rw [← hres]
    obtain ⟨a, g, f, p0, rest, w, t, sa, psa, ha, hg, hf, hp, hw, hsa, hpsa, hreqs, hhttp,
      hresp⟩ := lambda_handler_ok_spec env http e _ resp hpair
    rcases h with h | h | h | h | h
    · rw [h] at hp; simp at hp
    · rw [h] at ha; exact Option.noConfusion ha
    · rw [h] at hg; exact Option.noConfusion hg
    · rw [h] at hf; exact Option.noConfusion hf
    · rw [h] at hsa; exact Option.noConfusion hsa

theorem missing_keys_fault_uncaught_witness :
    evNoAgent.agent = none ∧
    ∃ f, (lambda_handler (some "k1") httpOK evNoAgent).2 = Except.error f :=
  ⟨rfl, missing_keys_fault_uncaught (some "k1") httpOK evNoAgent (Or.inr (Or.inl rfl))⟩

/-- C8 counterexample: `evNoAgent` has a non-empty `parameters` sequence,
yet the handler issues no outbound request at all (it faults on the
missing `agent` key first), refuting "exactly one outbound HTTP request"
for every event with non-empty `parameters`. -/
theorem single_request_counterexample :
    evNoAgent.parameters.getD [] ≠ [] ∧
    (lambda_handler (some "k1") httpOK evNoAgent).1 = [] := by
  constructor
  · simp [evNoAgent]
  · rfl

/-- C8 (amended): for every event that contains the `agent`,
`actionGroup` and `function` keys, whose `parameters` sequence is
non-empty and whose first parameter contains the `value` key, the handler
issues exactly one outbound HTTP request: a GET to the constructed URL
carrying header `X-Sim-Api-Key` equal to the `SIM_API_KEY` environment
value and a fixed timeout of 30 seconds. -/
theorem single_get_request_when_keys_present (env : Option String)
    (http : OutRequest → Except Fault String) (e : Event)
    (a g f : String) (p0 : Param) (rest : List Param) (w : String)
    (ha : e.agent = some a) (hg : e.actionGroup = some g) (hf : e.function = some f)
    (hp : e.parameters.getD [] = p0 :: rest) (hw : p0.value = some w) :
    (lambda_handler env http e).1 =
      [{ method := "GET",
         url := "https://api.sim.dune.com/v1/evm/transactions/" ++ w,
         headerName := "X-Sim-Api-Key", headerValue := env, timeout := 30 }] := by
  simp only [lambda_handler, ha, hg, hf, hp, hw]
  repeat' split
  all_goals rfl

theorem single_get_request_when_keys_present_witness :
    evOK.agent = some "a1" ∧ evOK.actionGroup = some "g1" ∧
    evOK.function = some "getTxns" ∧
    (lambda_handler (some "k1") httpOK evOK).1 =
      [{ method := "GET",
         url := "https://api.sim.dune.com/v1/evm/transactions/" ++ "0xabc",
         headerName := "X-Sim-Api-Key", headerValue := some "k1", timeout := 30 }] :=
  ⟨rfl, rfl, rfl,
   single_get_request_when_keys_present (some "k1") httpOK evOK "a1" "g1" "getTxns"
     { name := "wallet", type := "string", value := some "0xabc" } [] "0xabc"
     rfl rfl rfl rfl rfl⟩

/-- C9: when `SIM_API_KEY` is absent the handler performs no check and
does not fail before the network call: on any event that reaches the
call, the outbound request is still issued, with header value `none`, and
the upstream body is passed through into the success envelope as if it
were valid data. -/
theorem missing_api_key_unchecked (http : OutRequest → Except Fault String)
    (e : Event) (a g f : String) (p0 : Param) (rest : List Param) (w t : String)
    (sa psa : List (String × String))
    (ha : e.agent = some a) (hg : e.actionGroup = some g) (hf : e.function = some f)
    (hp : e.parameters.getD [] = p0 :: rest) (hw : p0.value = some w)
    (hsa : e.sessionAttributes = some sa) (hpsa : e.promptSessionAttributes = some psa)
    (hhttp : http (mkReq none w) = Except.ok t) :
    lambda_handler none http e = ([mkReq none w], Except.ok (mkResp g f t sa psa)) ∧
    (mkReq none w).headerValue = none := by
  refine ⟨?_, rfl⟩
  simp only [mkReq] at hhttp
  simp only [lambda_handler, ha, hg, hf, hp, hw, hsa, hpsa, hhttp, mkReq, mkResp]

theorem missing_api_key_unchecked_witness :
    httpOK (mkReq none "0xabc") = Except.ok "OK" ∧
    (lambda_handler none httpOK evOK =
       ([mkReq none "0xabc"], Except.ok (mkResp "g1" "getTxns" "OK" [("k", "v")] [])) ∧
     (mkReq none "0xabc").headerValue = none) :=
  ⟨rfl,
   missing_api_key_unchecked httpOK evOK "a1" "g1" "getTxns"
     { name := "wallet", type := "string", value := some "0xabc" } [] "0xabc" "OK"
     [("k", "v")] [] rfl rfl rfl rfl rfl rfl rfl rfl⟩

/-- C10: for any two events that both contain all required keys and a
non-empty `parameters` sequence and that agree on `actionGroup`,
`function`, `parameters[0].value`, `sessionAttributes` and
`promptSessionAttributes`, the handler produces identical request traces
and identical outputs under the same environment and network: the `agent`
value, the first parameter's `name` and `type`, and any parameters beyond
index 0 have no influence. -/
theorem irrelevant_fields_have_no_influence (env : Option String)
    (http : OutRequest → Except Fault String) (e1 e2 : Event)
    (a1 a2 g f : String) (p1 p2 : Param) (r1 r2 : List Param) (w : String)
    (sa psa : List (String × String))
    (ha1 : e1.agent = some a1) (ha2 : e2.agent = some a2)
    (hg1 : e1.actionGroup = some g) (hg2 : e2.actionGroup = some g)
    (hf1 : e1.function = some f) (hf2 : e2.function = some f)
    (hp1 : e1.parameters.getD [] = p1 :: r1) (hp2 : e2.parameters.getD [] = p2 :: r2)
    (hw1 : p1.value = some w) (hw2 : p2.value = some w)
    (hsa1 : e1.sessionAttributes = some sa) (hsa2 : e2.sessionAttributes = some sa)
    (hpsa1 : e1.promptSessionAttributes = some psa)
    (hpsa2 : e2.promptSessionAttributes = some psa) :
    lambda_handler env http e1 = lambda_handler env http e2 := by
  simp only [lambda_handler, ha1, ha2, hg1, hg2, hf1, hf2, hp1, hp2, hw1, hw2,
             hsa1, hsa2, hpsa1, hpsa2]

theorem irrelevant_fields_have_no_influence_witness :
    evOK.agent = some "a1" ∧ evVar.agent = some "a2" ∧
    lambda_handler (some "k1") httpOK evOK = lambda_handler (some "k1") httpOK evVar :=
  ⟨rfl, rfl,
   irrelevant_fields_have_no_influence (some "k1") httpOK evOK evVar "a1" "a2" "g1"
     "getTxns" { name := "wallet", type := "string", value := some "0xabc" }
     { name := "x", type := "integer", value := some "0xabc" } []
     [{ name := "extra", type := "string", value := some "zzz" }] "0xabc" [("k", "v")] []
     rfl rfl rfl rfl rfl rfl rfl rfl rfl rfl rfl rfl rfl rfl⟩
